import Mathlib

/-!
Verification development for the maestro execution and decoding subsystem.

Shallow embedding of:
- the domain error taxonomy (domain/music errors.go),
- the value objects Duration / Volume / TrackID (domain/music/values.go),
- the player / track entities (domain/music entities.go, staged as the
  second document of domain/music/errors_test.go),
- the AppleScript executor retry loop and exit-code classification
  (infrastructure/applescript/executor.go),
- the player-state / track decoders (infrastructure/applescript player
  repository, parsePlayerState / parseTrack).

Machine integers are modelled with Int (no claim exercises overflow);
subprocess execution is modelled by an oracle giving the outcome of each
single attempt, and the ambient context by boolean schedules saying where
cancellation is observed.
-/

set_option maxHeartbeats 1000000

namespace Maestro

/-- The sentinel error values (`Err*`) of domain/music errors.go.  Each Go
`errors.New` sentinel becomes one constructor; `errors.Is` on sentinels is
plain equality. -/
inductive ErrCode where
  | trackNotFound
  | invalidTrackID
  | invalidTrack
  | playlistNotFound
  | invalidPlaylistID
  | invalidPlaylist
  | playlistReadOnly
  | trackAlreadyInPlaylist
  | playerNotAvailable
  | invalidPlayerState
  | invalidVolume
  | invalidPosition
  | invalidRepeatMode
  | queueEmpty
  | invalidQueuePosition
  | libraryNotAvailable
  | searchFailed
  | invalidSearchQuery
  | operationFailed
  | timeout
  | permissionDenied
  | invalidOperation
  deriving DecidableEq, Repr, Fintype

/-- A context value stored in `DomainError.Context` (Go
`map[string]interface{}`); the code only ever stores strings and
integers there. -/
inductive CtxVal where
  | str (s : String)
  | int (n : Int)
  deriving DecidableEq, Repr

/-- Go `error` values reachable in the executor and decoder code paths:
a `*music.DomainError` (code, message, optional cause, context map,
the map modelled as an association list written in insertion order),
an `*exec.ExitError` carrying the exit code, or the two context errors. -/
inductive GoError where
  | domain (code : ErrCode) (message : String) (cause : Option GoError)
      (context : List (String × CtxVal))
  | exitError (code : Int)
  | contextCanceled
  | deadlineExceeded

/-- `music.NewDomainError` (errors.go): code and message, no cause, empty
context map. -/
def NewDomainError (code : ErrCode) (message : String) : GoError :=
  .domain code message none []

/-- `music.NewDomainErrorWithCause` (errors.go). -/
def NewDomainErrorWithCause (code : ErrCode) (message : String) (cause : GoError) : GoError :=
  .domain code message (some cause) []

/-- `DomainError.WithContext` (errors.go): adds one key/value pair to the
context map (Go map insert; later writes win on lookup). -/
def WithContext (e : GoError) (key : String) (value : CtxVal) : GoError :=
  match e with
  | .domain c m cz ctx => .domain c m cz (ctx ++ [(key, value)])
  | e => e

/-- `DomainError.GetContext` (errors.go): map lookup, last write wins. -/
def GetContext (e : GoError) (key : String) : Option CtxVal :=
  match e with
  | .domain _ _ _ ctx => ((ctx.reverse).find? (fun kv => kv.1 == key)).map (fun kv => kv.2)
  | _ => none

/-- `DomainError.IsRetryable` (errors.go lines 157-163) restricted to the
code, which is all it inspects: timeout, player/library unavailable, or
the generic operation-failed. -/
def ErrCode.isRetryable : ErrCode → Bool
  | .timeout | .playerNotAvailable | .libraryNotAvailable | .operationFailed => true
  | _ => false

/-- `DomainError.IsPermanent` (errors.go lines 165-174) restricted to the
code. -/
def ErrCode.isPermanent : ErrCode → Bool
  | .permissionDenied | .invalidTrackID | .invalidPlaylistID | .invalidVolume
  | .invalidPosition | .invalidSearchQuery | .playlistReadOnly => true
  | _ => false

/-- Package-level `music.IsRetryable` (errors.go lines 250-261): `errors.As`
finds the outermost `*DomainError` and asks it; the non-domain errors
reachable here are never the sentinel values themselves. -/
def IsRetryableErr : GoError → Bool
  | .domain c _ _ _ => c.isRetryable
  | _ => false

/-- Package-level `music.IsPermanent` (errors.go lines 263-274). -/
def IsPermanentErr : GoError → Bool
  | .domain c _ _ _ => c.isPermanent
  | _ => false

/-- ASCII whitespace recognised by Go `strings.TrimSpace` (the claims only
exercise ASCII data). -/
def goIsSpace (c : Char) : Bool :=
  c == ' ' || c == '\t' || c == '\n' || c == '\r' || c == '\x0b' || c == '\x0c'

/-- Go `strings.TrimSpace` on the character list: drop leading and
trailing whitespace. -/
def goTrimChars (l : List Char) : List Char :=
  ((l.dropWhile goIsSpace).reverse.dropWhile goIsSpace).reverse

/-- Go `strings.TrimSpace`. -/
def goTrim (s : String) : String :=
  String.mk (goTrimChars s.toList)

/-- Go `strings.Split` with a one-character separator: n separators yield
n+1 fields, empty fields included; the empty string yields one empty
field. -/
def splitChar : List Char → Char → List (List Char)
  | [], _ => [[]]
  | c :: rest, d =>
    match splitChar rest d with
    | [] => if c == d then [[], []] else [[c]]
    | h :: t => if c == d then [] :: h :: t else (c :: h) :: t

/-- Lower-casing of one ASCII character (Go `strings.ToLower` on the
ASCII data the protocol carries). -/
def goCharLower (c : Char) : Char :=
  if 65 ≤ c.toNat && c.toNat ≤ 90 then Char.ofNat (c.toNat + 32) else c

/-- Go `strings.ToLower`. -/
def goToLower (s : String) : String :=
  String.mk (s.toList.map goCharLower)

/-- `music.Duration` (values.go): a duration in whole seconds, Go `int`
modelled as `Int`. -/
structure Duration where
  seconds : Int
  deriving DecidableEq, Repr

/-- `music.NewDuration` (values.go lines 78-84): negative inputs clamp
to zero. -/
def NewDuration (s : Int) : Duration :=
  if s < 0 then ⟨0⟩ else ⟨s⟩

/-- `music.NewDurationFromTime` (values.go lines 86-89): factors through
`NewDuration`; the `time.Duration` to whole-seconds conversion is taken as
the integer argument. -/
def NewDurationFromTime (secs : Int) : Duration :=
  NewDuration secs

/-- `Duration.Seconds` (values.go). -/
def Duration.Seconds (d : Duration) : Int := d.seconds

/-- `Duration.IsValid` (values.go). -/
def Duration.IsValid (d : Duration) : Bool := d.seconds ≥ 0

/-- `Duration.IsZero` (values.go). -/
def Duration.IsZero (d : Duration) : Bool := d.seconds == 0

/-- `Duration.Add` (values.go lines 116-119). -/
def Duration.Add (d other : Duration) : Duration :=
  NewDuration (d.seconds + other.seconds)

/-- `Duration.Subtract` (values.go lines 121-128): saturates at zero before
re-entering `NewDuration`. -/
def Duration.Subtract (d other : Duration) : Duration :=
  NewDuration (if d.seconds - other.seconds < 0 then 0 else d.seconds - other.seconds)

/-- Two-digit zero padding used by `Duration.String` (`%02d`). -/
def pad2 (n : Int) : String :=
  if n < 10 then "0" ++ toString n else toString n

/-- `Duration.String` (values.go lines 130-144): `MM:SS` or `H:MM:SS`. -/
def Duration.fmtString (d : Duration) : String :=
  if d.seconds < 0 then "0:00"
  else
    let hours := d.seconds / 3600
    let minutes := (d.seconds % 3600) / 60
    let secs := d.seconds % 60
    if hours > 0 then toString hours ++ ":" ++ pad2 minutes ++ ":" ++ pad2 secs
    else toString minutes ++ ":" ++ pad2 secs

/-- `music.Volume` (values.go): audio volume, Go `int` level. -/
structure Volume where
  level : Int
  deriving DecidableEq, Repr

/-- `music.NewVolume` (values.go lines 157-165): clamps below 0 to 0 and
above 100 to 100. -/
def NewVolume (l : Int) : Volume :=
  if l < 0 then ⟨0⟩ else if l > 100 then ⟨100⟩ else ⟨l⟩

/-- `Volume.Level` (values.go). -/
def Volume.Level (v : Volume) : Int := v.level

/-- `Volume.IsValid` (values.go). -/
def Volume.IsValid (v : Volume) : Bool := v.level ≥ 0 && v.level ≤ 100

/-- `music.TrackID` (values.go): trimmed string identifier. -/
structure TrackID where
  value : String
  deriving DecidableEq, Repr

/-- `music.NewTrackID` (values.go lines 16-19): trims whitespace. -/
def NewTrackID (s : String) : TrackID := ⟨goTrim s⟩

/-- `TrackID.IsEmpty` (values.go). -/
def TrackID.IsEmpty (t : TrackID) : Bool := t.value == ""

/-- `music.PlayerState` (values.go lines 207-222). -/
inductive PlayerState where
  | stopped
  | playing
  | paused
  | buffering
  deriving DecidableEq, Repr

/-- `music.RepeatMode` (values.go lines 245-257). -/
inductive RepeatMode where
  | off
  | all
  | one
  deriving DecidableEq, Repr

/-- `music.Player` (entities.go, staged as the second document of
domain/music/errors_test.go, lines 585-608): playback state, optional
current track identifier, position, volume, shuffle flag, repeat mode, and
the LastUpdated timestamp — the Go `time.Time` wall-clock value modelled as
an integer clock reading. -/
structure Player where
  state : PlayerState
  currentTrack : Option TrackID
  position : Duration
  volume : Volume
  shuffle : Bool
  repeatMode : RepeatMode
  lastUpdated : Int
  deriving DecidableEq, Repr

/-- `music.NewPlayer` (entities.go line 611): stopped, no current track,
zero position, volume 50, shuffle off, repeat off, LastUpdated set to
`time.Now()` — the ambient clock is passed explicitly as `now`. -/
def NewPlayer (now : Int) : Player :=
  { state := .stopped
    currentTrack := none
    position := NewDuration 0
    volume := NewVolume 50
    shuffle := false
    repeatMode := .off
    lastUpdated := now }

/-- `music.Track` (entities.go lines 407-425): identifier, title, artist,
album, duration. -/
structure Track where
  id : TrackID
  title : String
  artist : String
  album : String
  duration : Duration
  deriving DecidableEq, Repr

/-- `music.NewTrack` (entities.go line 429): empty identifier fails with
the invalid-track-id code; empty title, empty artist or an invalid
(negative) duration fail with the invalid-track code; empty album is
accepted. -/
def NewTrack (id : TrackID) (title artist album : String) (duration : Duration) :
    Except GoError Track :=
  if id.IsEmpty then
    .error (NewDomainError .invalidTrackID "track ID cannot be empty")
  else if title == "" then
    .error (NewDomainError .invalidTrack "track title cannot be empty")
  else if artist == "" then
    .error (NewDomainError .invalidTrack "track artist cannot be empty")
  else if duration.IsValid = false then
    .error (NewDomainError .invalidTrack "track duration must be valid")
  else
    .ok { id := id, title := title, artist := artist, album := album, duration := duration }

/-- `music.WrapOperationTimeout` (errors.go lines 218-226): a timeout-coded
domain error with the operation name and the timeout length attached to the
context map. -/
def WrapOperationTimeout (operation : String) (timeout : Duration) (cause : GoError) : GoError :=
  WithContext
    (WithContext
      (NewDomainErrorWithCause .timeout
        ("operation \x27" ++ operation ++ "\x27 timed out after " ++ timeout.fmtString) cause)
      "operation" (.str operation))
    "timeout_seconds" (.int timeout.seconds)

/-- `applescript.ExecutorConfig` (executor.go lines 17-30); only the retry
budget matters to the embedded behaviour (the timeout and delay are real-time
quantities consumed by the schedule below). -/
structure ExecutorConfig where
  maxRetries : Nat
  deriving DecidableEq, Repr

/-- The outcome of one `executeOnce` call as consumed by the retry loop:
trimmed stdout and the classified error (nil on success).  `executeOnce`
always populates the per-attempt duration, so it does not appear here. -/
structure OnceOutcome where
  output : String
  error : Option GoError

/-- The environment of one `ExecuteWithTimeout` run: the outcome of the i-th
subprocess attempt, and where the ambient context is observed cancelled —
during the inter-attempt wait before attempt i (`ctx.Done()` in the select),
and at the `ctx.Err() != nil` check after a failed attempt i. -/
structure Schedule where
  once : Nat → OnceOutcome
  cancelDuringWait : Nat → Bool
  ctxErrAfter : Nat → Bool

/-- `applescript.ExecuteResult` (executor.go lines 59-72).  `durationSet`
records whether the Go code assigned `Duration = time.Since(startTime)` on
the path that produced the result (false means the field is left at its
zero value). -/
structure ExecuteResult where
  output : String
  error : Option GoError
  durationSet : Bool
  retryCount : Nat

/-- The retry loop of `ExecuteWithTimeout` (executor.go lines 91-136), from
a given attempt index with the remaining loop iterations as fuel and the
`lastErr` accumulator.  Returns the terminal result paired with the total
number of `executeOnce` calls made (the attempt index reached). -/
def retryLoopFrom (sched : Schedule) (maxRetries : Nat) :
    Nat → Nat → Option GoError → ExecuteResult × Nat
  | attempt, 0, lastErr =>
    ({ output := ""
       error := some (.domain .operationFailed
         ("AppleScript execution failed after " ++ toString (maxRetries + 1) ++ " attempts")
         lastErr [])
       durationSet := true
       retryCount := maxRetries }, attempt)
  | attempt, fuel + 1, lastErr =>
    if 0 < attempt && sched.cancelDuringWait attempt then
      ({ output := ""
         error := some (NewDomainErrorWithCause .timeout "context cancelled during retry"
           .contextCanceled)
         durationSet := true
         retryCount := attempt }, attempt)
    else
      let r := sched.once attempt
      match r.error with
      | none =>
        ({ output := r.output, error := none, durationSet := true, retryCount := attempt },
          attempt + 1)
      | some e =>
        if IsPermanentErr e then
          ({ output := r.output, error := some e, durationSet := true, retryCount := attempt },
            attempt + 1)
        else if sched.ctxErrAfter attempt then
          ({ output := r.output
             error := some (NewDomainErrorWithCause .timeout "context cancelled" .contextCanceled)
             durationSet := true
             retryCount := attempt }, attempt + 1)
        else
          retryLoopFrom sched maxRetries (attempt + 1) fuel (some e)

/-- `Executor.ExecuteWithTimeout` (executor.go lines 80-137): reject an
empty trimmed script before any attempt (that path never assigns the
duration), otherwise run the retry loop over attempts 0..maxRetries. -/
def ExecuteWithTimeout (cfg : ExecutorConfig) (sched : Schedule) (script : String) :
    ExecuteResult × Nat :=
  if goTrim script == "" then
    ({ output := ""
       error := some (NewDomainError .invalidOperation "AppleScript cannot be empty")
       durationSet := false
       retryCount := 0 }, 0)
  else
    retryLoopFrom sched cfg.maxRetries 0 (cfg.maxRetries + 1) none

/-- `Executor.Execute` (executor.go lines 74-77): `ExecuteWithTimeout` with
the configured default timeout. -/
def Execute (cfg : ExecutorConfig) (sched : Schedule) (script : String) :
    ExecuteResult × Nat :=
  ExecuteWithTimeout cfg sched script

/-- `Executor.ExecuteTemplate` (executor.go lines 253-270): resolve the
template through the script store (`LoadScript`), substitute the
`\x7b\x7bkey\x7d\x7d` placeholders with the rendered parameter values, then
execute; a load failure is returned before any attempt and without
assigning the duration. -/
def ExecuteTemplate (cfg : ExecutorConfig) (sched : Schedule)
    (store : String → Option String) (templateName : String)
    (params : List (String × String)) : ExecuteResult × Nat :=
  match store templateName with
  | none =>
    ({ output := ""
       error := some (NewDomainErrorWithCause .operationFailed "failed to load script template"
         (NewDomainError .operationFailed "failed to read script file"))
       durationSet := false
       retryCount := 0 }, 0)
  | some script =>
    let substituted := params.foldl
      (fun s kv => s.replace ("\x7b\x7b" ++ kv.1 ++ "\x7d\x7d") kv.2) script
    Execute cfg sched substituted

/-- The status `cmd.Wait` reports for one finished subprocess: clean exit,
an `*exec.ExitError` with a non-zero code, or any other error. -/
inductive WaitOutcome where
  | success
  | exit (code : Int)
  | otherErr (msg : String)
  deriving Repr

/-- The error classification of one attempt, `executeOnce` after `cmd.Wait`
(executor.go lines 187-225): trimmed stdout always captured; the
per-attempt deadline maps to a timeout error, ambient cancellation to a
timeout wrapping the context error, and otherwise the exit code decides —
1 puts the trimmed stderr in the message, 2 is a timeout, any other code is
an operation-failed whose message (not context map) carries the code. -/
def executeOnceClassify (timeout : Duration) (deadlineExceeded ctxCancelled : Bool)
    (w : WaitOutcome) (stdout stderr : String) : OnceOutcome :=
  let base : OnceOutcome := { output := goTrim stdout, error := none }
  match w with
  | .success => base
  | .exit c =>
    if deadlineExceeded then
      { base with error := some (WrapOperationTimeout "AppleScript execution" timeout
          (.exitError c)) }
    else if ctxCancelled then
      { base with error := some (NewDomainErrorWithCause .timeout "context cancelled"
          .contextCanceled) }
    else if c = 1 then
      { base with error := some (NewDomainErrorWithCause .operationFailed
          ("AppleScript execution failed: " ++ goTrim stderr) (.exitError c)) }
    else if c = 2 then
      { base with error := some (WrapOperationTimeout "AppleScript execution" timeout
          (.exitError c)) }
    else
      { base with error := some (NewDomainErrorWithCause .operationFailed
          ("AppleScript execution failed with exit code " ++ toString c ++ ": " ++ goTrim stderr)
          (.exitError c)) }
  | .otherErr m =>
    if deadlineExceeded then
      { base with error := some (WrapOperationTimeout "AppleScript execution" timeout
          (.domain .operationFailed m none [])) }
    else if ctxCancelled then
      { base with error := some (NewDomainErrorWithCause .timeout "context cancelled"
          .contextCanceled) }
    else
      { base with error := some (NewDomainErrorWithCause .operationFailed
          ("failed to execute AppleScript: " ++ goTrim stderr)
          (.domain .operationFailed m none [])) }

/-- Numeric value of a digit run (most significant first); callers check
digit-hood separately. -/
def natValOfDigits (l : List Char) : Nat :=
  l.foldl (fun acc c => acc * 10 + (c.toNat - 48)) 0

/-- The digits of a non-empty all-digit run, or failure: the core of Go
`strconv.Atoi` after the sign. -/
def digitsVal (l : List Char) : Option Nat :=
  if l.isEmpty then none
  else if l.all Char.isDigit then some (natValOfDigits l) else none

/-- Go `strconv.Atoi`: optional sign then at least one digit, nothing else
accepted (no spaces, no empty string). -/
def goAtoi (s : String) : Option Int :=
  match s.toList with
  | '+' :: rest => (digitsVal rest).map Int.ofNat
  | '-' :: rest => (digitsVal rest).map (fun n => -(Int.ofNat n))
  | l => (digitsVal l).map Int.ofNat

/-- Mantissa of a plain decimal literal: digits with at most one point and
at least one digit, valued by its integer part (truncation toward zero). -/
def parseFloatCore (l : List Char) : Option Nat :=
  let ip := l.takeWhile Char.isDigit
  let rest := l.drop ip.length
  match rest with
  | [] => if ip.isEmpty then none else some (natValOfDigits ip)
  | '.' :: frac =>
    if frac.all Char.isDigit && !(ip.isEmpty && frac.isEmpty) then
      some (natValOfDigits ip)
    else none
  | _ => none

/-- Go `int(strconv.ParseFloat(s, 64))` as used by the decoders: the parse
of a plain decimal literal followed by truncation toward zero.  Exotic
float syntax (exponents, hex floats, infinities) is outside the decoder
protocol and is mapped to failure. -/
def parseFloatInt (s : String) : Option Int :=
  match s.toList with
  | '+' :: rest => (parseFloatCore rest).map Int.ofNat
  | '-' :: rest => (parseFloatCore rest).map (fun n => -(Int.ofNat n))
  | l => (parseFloatCore l).map Int.ofNat

/-- The player-state switch of `parsePlayerState` (player repository):
sequential case-insensitive comparison against stopped/playing/paused with
stopped as the default. -/
def parseStateField (s : String) : PlayerState :=
  if goToLower s = "stopped" then .stopped
  else if goToLower s = "playing" then .playing
  else if goToLower s = "paused" then .paused
  else .stopped

/-- The repeat-mode switch of `parsePlayerState`: off/all/one with off as
the default. -/
def parseRepeatField (s : String) : RepeatMode :=
  if goToLower s = "off" then .off
  else if goToLower s = "all" then .all
  else if goToLower s = "one" then .one
  else .off

/-- `PlayerRepository.parsePlayerState` after the split: exactly six fields
or an operation-failed error; state, volume (Atoi then clamp), position
(sentinel `missing value` or empty decodes to zero, otherwise ParseFloat),
shuffle (case-insensitive comparison with `true`), repeat mode, optional
track identifier; fields assigned onto a fresh `NewPlayer` whose
LastUpdated keeps the ambient clock reading `now`. -/
def parsePlayerStateParts (now : Int) (parts : List String) : Except GoError Player :=
  match parts with
  | [p0, p1, p2, p3, p4, p5] =>
    let state := parseStateField p0
    match goAtoi p1 with
    | none => .error (NewDomainError .operationFailed "invalid volume format")
    | some lvl =>
      let volume := NewVolume lvl
      let posResult : Except GoError Duration :=
        if p2 == "missing value" || p2 == "" then .ok (NewDuration 0)
        else
          match parseFloatInt p2 with
          | none => .error (NewDomainError .operationFailed "invalid position format")
          | some n => .ok (NewDuration n)
      match posResult with
      | .error e => .error e
      | .ok position =>
        let shuffle := goToLower p3 == "true"
        let rep := parseRepeatField p4
        let currentTrack : Option TrackID :=
          if p5 == "" then none else some (NewTrackID p5)
        .ok { NewPlayer now with
                state := state
                volume := volume
                position := position
                shuffle := shuffle
                repeatMode := rep
                currentTrack := currentTrack }
  | _ => .error (NewDomainError .operationFailed "invalid player state format")

/-- `PlayerRepository.parsePlayerState`: trim, split on the pipe
delimiter, then decode the fields. -/
def parsePlayerState (now : Int) (output : String) : Except GoError Player :=
  parsePlayerStateParts now ((splitChar (goTrimChars output.toList) '|').map String.mk)

/-- `PlayerRepository.parseTrack` after the split: exactly five fields or
an operation-failed error; duration via ParseFloat then truncation, and
entity construction through `NewTrack`. -/
def parseTrackParts (parts : List String) : Except GoError Track :=
  match parts with
  | [p0, p1, p2, p3, p4] =>
    match parseFloatInt p4 with
    | none => .error (NewDomainError .operationFailed "invalid track duration format")
    | some n => NewTrack (NewTrackID p0) p1 p2 p3 (NewDuration n)
  | _ => .error (NewDomainError .operationFailed "invalid track format")

/-- `PlayerRepository.parseTrack`: trim, split on the pipe delimiter, then
decode. -/
def parseTrack (output : String) : Except GoError Track :=
  parseTrackParts ((splitChar (goTrimChars output.toList) '|').map String.mk)

/-- The textual rendering of a volume level as it is written into the
AppleScript control commands (`%d` of `Volume.Level()` in SetVolume). -/
def encodeVolume (v : Volume) : String := toString v.level

/-- The decoding of a textual volume as performed on the script output
side of the protocol (the volume field of `parsePlayerState`):
`strconv.Atoi` then the clamping constructor. -/
def decodeVolume (s : String) : Option Volume :=
  (goAtoi s).map NewVolume

/-- Whether the second list is a leading segment of the first. -/
def leadingSeg : List Char → List Char → Bool
  | _, [] => true
  | [], _ :: _ => false
  | a :: as, b :: bs => a == b && leadingSeg as bs

/-- Whether the needle occurs contiguously inside the haystack. -/
def subOccurs : List Char → List Char → Bool
  | [], pat => pat.isEmpty
  | a :: as, pat => leadingSeg (a :: as) pat || subOccurs as pat

/-- Substring test used to state what an error message mentions. -/
def containsSub (s pat : String) : Bool :=
  subOccurs s.toList pat.toList

/-- The spec's `invalid-input` category mapped onto the sentinel codes: the
invalid-* family of errors.go (spec sections 3 and 7; the section 7 taxonomy
lists invalid-track-id, invalid-volume, invalid-position and
invalid-repeat-mode as its entity-specific specializations). -/
def specInvalidInputCode : ErrCode → Bool
  | .invalidTrackID | .invalidTrack | .invalidPlaylistID | .invalidPlaylist
  | .invalidPlayerState | .invalidVolume | .invalidPosition | .invalidRepeatMode
  | .invalidQueuePosition | .invalidSearchQuery | .invalidOperation => true
  | _ => false

/-- The playback-state decoding the spec describes: case-insensitive mapping
onto the full enumeration including buffering, defaulting to stopped. -/
def specStateOf (s : String) : PlayerState :=
  if goToLower s = "stopped" then .stopped
  else if goToLower s = "playing" then .playing
  else if goToLower s = "paused" then .paused
  else if goToLower s = "buffering" then .buffering
  else .stopped

/-- The durations producible by the constructors and operations of
values.go: `NewDuration`, `NewDurationFromTime`, `Add`, `Subtract`. -/
inductive ProducedDuration : Duration → Prop where
  | new (s : Int) : ProducedDuration (NewDuration s)
  | fromTime (s : Int) : ProducedDuration (NewDurationFromTime s)
  | add {d d' : Duration} : ProducedDuration d → ProducedDuration d' →
      ProducedDuration (d.Add d')
  | subtract {d d' : Duration} : ProducedDuration d → ProducedDuration d' →
      ProducedDuration (d.Subtract d')

/-- Claim C1 as stated: when the first n-1 attempts fail with a retryable
error and attempt n succeeds (no cancellation), the returned success result
reports an attempt count equal to n, and exactly n subprocess attempts are
made. -/
def c1AsStated : Prop :=
  ∀ (cfg : ExecutorConfig) (sched : Schedule) (script : String) (n : Nat),
    goTrim script ≠ "" → 1 ≤ n → n ≤ cfg.maxRetries + 1 →
    (∀ i, sched.cancelDuringWait i = false) →
    (∀ i, sched.ctxErrAfter i = false) →
    (∀ i, i < n - 1 → ∃ e, (sched.once i).error = some e ∧ IsRetryableErr e = true) →
    (sched.once (n - 1)).error = none →
    (ExecuteWithTimeout cfg sched script).1.error = none ∧
    (ExecuteWithTimeout cfg sched script).1.retryCount = n ∧
    (ExecuteWithTimeout cfg sched script).2 = n

/-- Claim C3 as stated: retryable and permanent are mutually exclusive but
not exhaustive; unavailable, timeout and operation-failed are retryable;
invalid-input, permission-denied and read-only are permanent. -/
def c3AsStated : Prop :=
  (∀ c : ErrCode, (c.isRetryable && c.isPermanent) = false) ∧
  (∃ c : ErrCode, c.isRetryable = false ∧ c.isPermanent = false) ∧
  ErrCode.playerNotAvailable.isRetryable = true ∧
  ErrCode.libraryNotAvailable.isRetryable = true ∧
  ErrCode.timeout.isRetryable = true ∧
  ErrCode.operationFailed.isRetryable = true ∧
  (∀ c : ErrCode, specInvalidInputCode c = true → c.isPermanent = true) ∧
  ErrCode.permissionDenied.isPermanent = true ∧
  ErrCode.playlistReadOnly.isPermanent = true

/-- Claim C4 as stated: with neither timeout nor cancellation, exit code 2
yields a timeout-category error, exit code 1 an operation-failed with the
stderr text as message, and any other non-zero exit code an
operation-failed with the exit code recorded in the context map. -/
def c4AsStated : Prop :=
  ∀ (timeout : Duration) (stdout stderr : String) (c : Int),
    (∃ msg cause ctx,
       (executeOnceClassify timeout false false (.exit 2) stdout stderr).error =
         some (.domain .timeout msg cause ctx)) ∧
    ((executeOnceClassify timeout false false (.exit 1) stdout stderr).error =
       some (NewDomainErrorWithCause .operationFailed
         ("AppleScript execution failed: " ++ goTrim stderr) (.exitError 1))) ∧
    (c ≠ 0 → c ≠ 1 → c ≠ 2 →
       ∃ e, (executeOnceClassify timeout false false (.exit c) stdout stderr).error = some e ∧
         ∃ k, GetContext e k = some (.int c))

/-- Claim C5 as stated: a field-count mismatch yields an operation-failed
error whose message names the expected and the actual field count. -/
def c5AsStated : Prop :=
  (∀ (now : Int) (parts : List String), parts.length ≠ 6 →
     ∃ msg cause ctx,
       parsePlayerStateParts now parts = .error (.domain .operationFailed msg cause ctx) ∧
       containsSub msg (toString (6 : Nat)) = true ∧
       containsSub msg (toString parts.length) = true) ∧
  (∀ parts : List String, parts.length ≠ 5 →
     ∃ msg cause ctx,
       parseTrackParts parts = .error (.domain .operationFailed msg cause ctx) ∧
       containsSub msg (toString (5 : Nat)) = true ∧
       containsSub msg (toString parts.length) = true)

/-- Claim C6 as stated: the playback-state field is case-insensitively
mapped onto stopped/playing/paused/buffering (default stopped) and the
repeat field onto off/all/one (default off), never an error. -/
def c6AsStated : Prop :=
  ∀ (now : Int) (st rep : String), ∃ p,
    parsePlayerStateParts now [st, "50", "missing value", "false", rep, ""] = .ok p ∧
    p.state = specStateOf st ∧ p.repeatMode = parseRepeatField rep

/-- Claim C7 as stated: every terminal result of Execute,
ExecuteWithTimeout or ExecuteTemplate has its elapsed-duration field
populated (exactly one of output and error being authoritative). -/
def c7AsStated : Prop :=
  ∀ (cfg : ExecutorConfig) (sched : Schedule) (script : String)
    (store : String → Option String) (nm : String) (params : List (String × String)),
    (ExecuteWithTimeout cfg sched script).1.durationSet = true ∧
    (Execute cfg sched script).1.durationSet = true ∧
    (ExecuteTemplate cfg sched store nm params).1.durationSet = true

/-! ## Helper lemmas -/

theorem newDuration_seconds_nonneg (s : Int) : 0 ≤ (NewDuration s).Seconds := by
  unfold NewDuration Duration.Seconds
  by_cases h : s < 0
  · rw [if_pos h]
  · rw [if_neg h]
    show 0 ≤ s
    omega

theorem isRetryable_isPermanent_exclusive (c : ErrCode) :
    c.isRetryable = true → c.isPermanent = false := by
  revert c; decide

theorem retryableErr_not_permanentErr (e : GoError) (h : IsRetryableErr e = true) :
    IsPermanentErr e = false := by
  cases e with
  | domain c m cz ctx => exact isRetryable_isPermanent_exclusive c h
  | exitError c => simp [IsRetryableErr] at h
  | contextCanceled => simp [IsRetryableErr] at h
  | deadlineExceeded => simp [IsRetryableErr] at h

theorem retryLoop_durationSet (sched : Schedule) (maxR : Nat) :
    ∀ (fuel attempt : Nat) (lastErr : Option GoError),
      ((retryLoopFrom sched maxR attempt fuel lastErr).1).durationSet = true := by
  intro fuel
  induction fuel with
  | zero => intro attempt lastErr; rfl
  | succ f ih =>
    intro attempt lastErr
    simp only [retryLoopFrom]
    by_cases hc : (0 < attempt && sched.cancelDuringWait attempt) = true
    · rw [if_pos hc]
    · rw [if_neg hc]
      cases he : (sched.once attempt).error with
      | none => rfl
      | some e =>
        by_cases hp : IsPermanentErr e = true
        · simp only [hp, if_true]
        · simp only [hp, Bool.false_eq_true, if_false]
          by_cases hx : sched.ctxErrAfter attempt = true
          · simp only [hx, if_true]
          · simp only [hx, Bool.false_eq_true, if_false]
            exact ih _ _

theorem retryLoopFrom_zero (sched : Schedule) (maxR attempt : Nat) (lastErr : Option GoError) :
    retryLoopFrom sched maxR attempt 0 lastErr =
      ({ output := ""
         error := some (.domain .operationFailed
           ("AppleScript execution failed after " ++ toString (maxR + 1) ++ " attempts")
           lastErr [])
         durationSet := true
         retryCount := maxR }, attempt) := rfl

theorem retryLoopFrom_succ (sched : Schedule) (maxR attempt fuel : Nat) (lastErr : Option GoError) :
    retryLoopFrom sched maxR attempt (fuel + 1) lastErr =
      if 0 < attempt && sched.cancelDuringWait attempt then
        ({ output := ""
           error := some (NewDomainErrorWithCause .timeout "context cancelled during retry"
             .contextCanceled)
           durationSet := true
           retryCount := attempt }, attempt)
      else
        match (sched.once attempt).error with
        | none =>
          ({ output := (sched.once attempt).output, error := none, durationSet := true,
             retryCount := attempt }, attempt + 1)
        | some e =>
          if IsPermanentErr e then
            ({ output := (sched.once attempt).output, error := some e, durationSet := true,
               retryCount := attempt }, attempt + 1)
          else if sched.ctxErrAfter attempt then
            ({ output := (sched.once attempt).output
               error := some (NewDomainErrorWithCause .timeout "context cancelled" .contextCanceled)
               durationSet := true
               retryCount := attempt }, attempt + 1)
          else
            retryLoopFrom sched maxR (attempt + 1) fuel (some e) := rfl

theorem retryLoop_noCancel_success (sched : Schedule) (maxR : Nat)
    (hC : ∀ i, sched.cancelDuringWait i = false)
    (hE : ∀ i, sched.ctxErrAfter i = false) :
    ∀ (k attempt fuel : Nat) (lastErr : Option GoError),
      k < fuel →
      (∀ i, i < k → ∃ e, (sched.once (attempt + i)).error = some e ∧ IsPermanentErr e = false) →
      (sched.once (attempt + k)).error = none →
      retryLoopFrom sched maxR attempt fuel lastErr =
        ({ output := (sched.once (attempt + k)).output, error := none,
           durationSet := true, retryCount := attempt + k }, attempt + k + 1) := by
  intro k
  induction k with
  | zero =>
    intro attempt fuel lastErr hk hfail hsucc
    obtain ⟨f, rfl⟩ : ∃ f, fuel = f + 1 := ⟨fuel - 1, by omega⟩
    simp only [Nat.add_zero] at hsucc ⊢
    rw [retryLoopFrom_succ]
    simp only [hC attempt, Bool.and_false, Bool.false_eq_true, if_false, hsucc]
  | succ k ih =>
    intro attempt fuel lastErr hk hfail hsucc
    obtain ⟨f, rfl⟩ : ∃ f, fuel = f + 1 := ⟨fuel - 1, by omega⟩
    obtain ⟨e, he, hp⟩ := hfail 0 (Nat.succ_pos k)
    rw [Nat.add_zero] at he
    rw [retryLoopFrom_succ]
    simp only [hC attempt, Bool.and_false, Bool.false_eq_true, if_false]
    rw [he]
    simp only [hp, Bool.false_eq_true, if_false, hE attempt]
    have hrec := ih (attempt + 1) f (some e) (by omega)
      (fun i hi => by
        have h := hfail (i + 1) (by omega)
        rwa [show attempt + (i + 1) = attempt + 1 + i by omega] at h)
      (by rwa [show attempt + 1 + k = attempt + (k + 1) by omega])
    rw [hrec, show attempt + 1 + k = attempt + (k + 1) by omega]

theorem retryLoop_noCancel_exhaust (sched : Schedule) (maxR : Nat)
    (hC : ∀ i, sched.cancelDuringWait i = false)
    (hE : ∀ i, sched.ctxErrAfter i = false) :
    ∀ (fuel attempt : Nat) (lastErr : Option GoError),
      (∀ i, i < fuel + 1 →
        ∃ e, (sched.once (attempt + i)).error = some e ∧ IsPermanentErr e = false) →
      retryLoopFrom sched maxR attempt (fuel + 1) lastErr =
        ({ output := "", error := some (.domain .operationFailed
             ("AppleScript execution failed after " ++ toString (maxR + 1) ++ " attempts")
             ((sched.once (attempt + fuel)).error) []),
           durationSet := true, retryCount := maxR }, attempt + fuel + 1) := by
  intro fuel
  induction fuel with
  | zero =>
    intro attempt lastErr hfail
    obtain ⟨e, he, hp⟩ := hfail 0 (by omega)
    rw [Nat.add_zero] at he
    rw [retryLoopFrom_succ]
    simp only [hC attempt, Bool.and_false, Bool.false_eq_true, if_false]
    rw [he]
    simp only [hp, Bool.false_eq_true, if_false, hE attempt]
    rw [retryLoopFrom_zero]
    simp only [Nat.add_zero, he]
  | succ f ih =>
    intro attempt lastErr hfail
    obtain ⟨e, he, hp⟩ := hfail 0 (by omega)
    rw [Nat.add_zero] at he
    rw [retryLoopFrom_succ]
    simp only [hC attempt, Bool.and_false, Bool.false_eq_true, if_false]
    rw [he]
    simp only [hp, Bool.false_eq_true, if_false, hE attempt]
    have hrec := ih (attempt + 1) (some e) (fun i hi => by
      have h := hfail (i + 1) (by omega)
      rwa [show attempt + (i + 1) = attempt + 1 + i by omega] at h)
    rw [hrec, show attempt + 1 + f = attempt + (f + 1) by omega]

/-! ## Claims -/

/-- Claim C1 (corrected): if the first n-1 attempts fail with a retryable
error and attempt n succeeds, with no cancellation, `ExecuteWithTimeout`
returns that attempt's output as a success and stops — exactly n subprocess
attempts are made, none after the successful one — but the result's
RetryCount field reports n-1 (the retries before success), not n. -/
theorem executeWithTimeout_success_reports_retries
    (cfg : ExecutorConfig) (sched : Schedule) (script : String) (n : Nat)
    (hscript : goTrim script ≠ "")
    (hn : 1 ≤ n) (hle : n ≤ cfg.maxRetries + 1)
    (hC : ∀ i, sched.cancelDuringWait i = false)
    (hE : ∀ i, sched.ctxErrAfter i = false)
    (hfail : ∀ i, i < n - 1 → ∃ e, (sched.once i).error = some e ∧ IsRetryableErr e = true)
    (hsucc : (sched.once (n - 1)).error = none) :
    ExecuteWithTimeout cfg sched script =
      ({ output := (sched.once (n - 1)).output, error := none,
         durationSet := true, retryCount := n - 1 }, n) := by
  have hb : (goTrim script == "") = false := beq_eq_false_iff_ne.mpr hscript
  unfold ExecuteWithTimeout
  simp only [hb, Bool.false_eq_true, if_false]
  have h := retryLoop_noCancel_success sched cfg.maxRetries hC hE (n - 1) 0
    (cfg.maxRetries + 1) none (by omega)
    (fun i hi => by
      obtain ⟨e, he, hr⟩ := hfail i hi
      exact ⟨e, by simpa using he, retryableErr_not_permanentErr e hr⟩)
    (by simpa using hsucc)
  simp only [Nat.zero_add] at h
  rw [show n - 1 + 1 = n by omega] at h
  exact h

/-- Counterexample to claim C1 as stated: with maxRetries 3 and a first
attempt that immediately succeeds (n = 1), the returned RetryCount field is
0, not 1. -/
theorem c1_not_as_stated : ¬ c1AsStated := by
  intro h
  have h1 := h ⟨3⟩ ⟨fun _ => ⟨"ok", none⟩, fun _ => false, fun _ => false⟩ "return 1" 1
    (by decide) (by decide) (by decide) (fun _ => rfl) (fun _ => rfl)
    (fun i hi => absurd hi (by omega)) rfl
  exact absurd h1.2.1 (by decide)

/-- Claim C2 (confirmed): with maxRetries 3 and every attempt failing with
a retryable error (no cancellation), `ExecuteWithTimeout` makes exactly 4
attempts and returns an operation-failed error wrapping the last underlying
cause, with the attempt total recorded in its message. -/
theorem executeWithTimeout_exhausts_four_attempts
    (sched : Schedule) (script : String)
    (hscript : goTrim script ≠ "")
    (hC : ∀ i, sched.cancelDuringWait i = false)
    (hE : ∀ i, sched.ctxErrAfter i = false)
    (hfail : ∀ i, ∃ e, (sched.once i).error = some e ∧ IsRetryableErr e = true) :
    ExecuteWithTimeout ⟨3⟩ sched script =
      ({ output := ""
         error := some (.domain .operationFailed
           "AppleScript execution failed after 4 attempts" ((sched.once 3).error) [])
         durationSet := true
         retryCount := 3 }, 4) := by
  have hb : (goTrim script == "") = false := beq_eq_false_iff_ne.mpr hscript
  unfold ExecuteWithTimeout
  simp only [hb, Bool.false_eq_true, if_false]
  have h := retryLoop_noCancel_exhaust sched 3 hC hE 3 0 none
    (fun i _ => by
      obtain ⟨e, he, hr⟩ := hfail i
      exact ⟨e, by simpa using he, retryableErr_not_permanentErr e hr⟩)
  simp only [Nat.zero_add] at h
  exact h

/-- Witness for C2 at a concrete schedule where every attempt fails with a
retryable timeout error. -/
theorem executeWithTimeout_exhausts_four_attempts_witness :
    ExecuteWithTimeout ⟨3⟩
        ⟨fun _ => ⟨"", some (NewDomainError .timeout "boom")⟩, fun _ => false, fun _ => false⟩
        "tell" =
      ({ output := ""
         error := some (.domain .operationFailed
           "AppleScript execution failed after 4 attempts"
           (some (NewDomainError .timeout "boom")) [])
         durationSet := true
         retryCount := 3 }, 4) :=
  executeWithTimeout_exhausts_four_attempts _ "tell" (by decide) (fun _ => rfl) (fun _ => rfl)
    (fun _ => ⟨NewDomainError .timeout "boom", rfl, rfl⟩)

/-- Witness for the corrected C1: attempt 0 fails with a retryable error,
attempt 1 succeeds; the success is returned at attempt total 2 with a
RetryCount of 1. -/
theorem executeWithTimeout_success_reports_retries_witness :
    ExecuteWithTimeout ⟨3⟩
        ⟨fun i => if i = 0 then ⟨"", some (NewDomainError .timeout "t0")⟩ else ⟨"done", none⟩,
         fun _ => false, fun _ => false⟩ "tell" =
      ({ output := "done", error := none, durationSet := true, retryCount := 1 }, 2) :=
  executeWithTimeout_success_reports_retries ⟨3⟩ _ "tell" 2 (by decide) (by decide) (by decide)
    (fun _ => rfl) (fun _ => rfl)
    (fun i hi => by
      have hz : i = 0 := by omega
      subst hz
      exact ⟨NewDomainError .timeout "t0", rfl, rfl⟩)
    rfl

/-- Claim C3 (corrected): the retryable and permanent classifications are
mutually exclusive and not exhaustive (not-found is neither); timeout, the
two unavailable codes and operation-failed are retryable; permission-denied
and read-only are permanent; but only invalid-track-id, invalid-playlist-id,
invalid-volume, invalid-position and invalid-search-query of the
invalid-input family are permanent — the remaining invalid-* codes are
neither retryable nor permanent. -/
theorem errorClassification_exclusive_not_exhaustive :
    (∀ e : GoError, (IsRetryableErr e && IsPermanentErr e) = false) ∧
    (∀ c : ErrCode, (c.isRetryable && c.isPermanent) = false) ∧
    (ErrCode.trackNotFound.isRetryable = false ∧ ErrCode.trackNotFound.isPermanent = false) ∧
    (ErrCode.playerNotAvailable.isRetryable = true ∧
     ErrCode.libraryNotAvailable.isRetryable = true ∧
     ErrCode.timeout.isRetryable = true ∧
     ErrCode.operationFailed.isRetryable = true) ∧
    (ErrCode.permissionDenied.isPermanent = true ∧
     ErrCode.playlistReadOnly.isPermanent = true ∧
     ErrCode.invalidTrackID.isPermanent = true ∧
     ErrCode.invalidPlaylistID.isPermanent = true ∧
     ErrCode.invalidVolume.isPermanent = true ∧
     ErrCode.invalidPosition.isPermanent = true ∧
     ErrCode.invalidSearchQuery.isPermanent = true) ∧
    (ErrCode.invalidTrack.isRetryable = false ∧ ErrCode.invalidTrack.isPermanent = false ∧
     ErrCode.invalidPlaylist.isRetryable = false ∧ ErrCode.invalidPlaylist.isPermanent = false ∧
     ErrCode.invalidPlayerState.isRetryable = false ∧
     ErrCode.invalidPlayerState.isPermanent = false ∧
     ErrCode.invalidRepeatMode.isRetryable = false ∧
     ErrCode.invalidRepeatMode.isPermanent = false ∧
     ErrCode.invalidQueuePosition.isRetryable = false ∧
     ErrCode.invalidQueuePosition.isPermanent = false ∧
     ErrCode.invalidOperation.isRetryable = false ∧
     ErrCode.invalidOperation.isPermanent = false) := by
  constructor
  · intro e
    cases e with
    | domain c m cz ctx =>
      have hall : ∀ c : ErrCode, (c.isRetryable && c.isPermanent) = false := by decide
      exact hall c
    | exitError c => rfl
    | contextCanceled => rfl
    | deadlineExceeded => rfl
  · exact ⟨by decide, by decide, by decide, by decide, by decide⟩

/-- Counterexample to claim C3 as stated: invalid-repeat-mode belongs to
the invalid-input family but is not classified permanent. -/
theorem c3_not_as_stated : ¬ c3AsStated := by
  intro h
  exact absurd (h.2.2.2.2.2.2.1 .invalidRepeatMode rfl) (by decide)

/-- Claim C4 (corrected): with neither timeout nor cancellation, exit code
2 yields a timeout-category error (with operation name and timeout length
in its context), exit code 1 an operation-failed whose message carries the
trimmed stderr text, and any other non-zero exit code an operation-failed
whose message — not context map, which stays empty — records the exit
code. -/
theorem executeOnce_exitCode_classification
    (timeout : Duration) (stdout stderr : String) (c : Int)
    (h1 : c ≠ 1) (h2 : c ≠ 2) :
    ((executeOnceClassify timeout false false (.exit 2) stdout stderr).error =
       some (.domain .timeout
         ("operation \x27AppleScript execution\x27 timed out after " ++ timeout.fmtString)
         (some (.exitError 2))
         [("operation", .str "AppleScript execution"),
          ("timeout_seconds", .int timeout.seconds)])) ∧
    ((executeOnceClassify timeout false false (.exit 1) stdout stderr).error =
       some (.domain .operationFailed
         ("AppleScript execution failed: " ++ goTrim stderr) (some (.exitError 1)) [])) ∧
    ((executeOnceClassify timeout false false (.exit c) stdout stderr).error =
       some (.domain .operationFailed
         ("AppleScript execution failed with exit code " ++ toString c ++ ": " ++ goTrim stderr)
         (some (.exitError c)) [])) ∧
    (∀ k, GetContext (.domain .operationFailed
         ("AppleScript execution failed with exit code " ++ toString c ++ ": " ++ goTrim stderr)
         (some (.exitError c)) []) k = none) := by
  refine ⟨rfl, rfl, ?_, fun k => rfl⟩
  simp only [executeOnceClassify, Bool.false_eq_true, if_false, h1, h2, ite_false]
  rfl

/-- Witness for the corrected C4 at exit code 3. -/
theorem executeOnce_exitCode_classification_witness :
    ((executeOnceClassify (NewDuration 10) false false (.exit 2) "out" "boom").error =
       some (.domain .timeout
         ("operation \x27AppleScript execution\x27 timed out after " ++
           (NewDuration 10).fmtString)
         (some (.exitError 2))
         [("operation", .str "AppleScript execution"),
          ("timeout_seconds", .int (NewDuration 10).seconds)])) ∧
    ((executeOnceClassify (NewDuration 10) false false (.exit 1) "out" "boom").error =
       some (.domain .operationFailed
         ("AppleScript execution failed: " ++ goTrim "boom") (some (.exitError 1)) [])) ∧
    ((executeOnceClassify (NewDuration 10) false false (.exit 3) "out" "boom").error =
       some (.domain .operationFailed
         ("AppleScript execution failed with exit code " ++ toString (3 : Int) ++ ": " ++
           goTrim "boom")
         (some (.exitError 3)) [])) ∧
    (∀ k, GetContext (.domain .operationFailed
         ("AppleScript execution failed with exit code " ++ toString (3 : Int) ++ ": " ++
           goTrim "boom")
         (some (.exitError 3)) []) k = none) :=
  executeOnce_exitCode_classification (NewDuration 10) "out" "boom" 3 (by decide) (by decide)

/-- Counterexample to claim C4 as stated: at exit code 3 the produced
error's context map is empty — the exit code is only in the message. -/
theorem c4_not_as_stated : ¬ c4AsStated := by
  intro h
  obtain ⟨e, he, k, hk⟩ :=
    (h (NewDuration 10) "out" "boom" 3).2.2 (by decide) (by decide) (by decide)
  rw [show (executeOnceClassify (NewDuration 10) false false (.exit 3) "out" "boom").error =
      some (.domain .operationFailed "AppleScript execution failed with exit code 3: boom"
        (some (.exitError 3)) []) from rfl] at he
  injection he with he'
  subst he'
  rw [show GetContext (.domain .operationFailed
      "AppleScript execution failed with exit code 3: boom"
      (some (.exitError 3)) []) k = none from rfl] at hk
  exact Option.noConfusion hk

/-- Claim C5 (corrected): a split that does not yield exactly 6 fields
(player state) or 5 fields (track) makes the decoder return an
operation-failed error and never a partial object — but the error message
is the fixed text "invalid player state format" / "invalid track format";
it does not name the expected or actual field count. -/
theorem parse_wrongFieldCount_fixedMessage :
    (∀ (now : Int) (parts : List String), parts.length ≠ 6 →
       parsePlayerStateParts now parts =
         .error (NewDomainError .operationFailed "invalid player state format")) ∧
    (∀ parts : List String, parts.length ≠ 5 →
       parseTrackParts parts =
         .error (NewDomainError .operationFailed "invalid track format")) ∧
    (∀ (now : Int) (s : String),
       ((splitChar (goTrimChars s.toList) '|').map String.mk).length ≠ 6 →
       parsePlayerState now s =
         .error (NewDomainError .operationFailed "invalid player state format")) := by
  have h6 : ∀ (now : Int) (parts : List String), parts.length ≠ 6 →
      parsePlayerStateParts now parts =
        .error (NewDomainError .operationFailed "invalid player state format") := by
    intro now parts h
    rcases parts with _ | ⟨a, _ | ⟨b, _ | ⟨c, _ | ⟨d, _ | ⟨e, _ | ⟨f, _ | ⟨g, rest⟩⟩⟩⟩⟩⟩⟩
    · rfl
    · rfl
    · rfl
    · rfl
    · rfl
    · rfl
    · exact absurd rfl h
    · rfl
  have h5 : ∀ parts : List String, parts.length ≠ 5 →
      parseTrackParts parts =
        .error (NewDomainError .operationFailed "invalid track format") := by
    intro parts h
    rcases parts with _ | ⟨a, _ | ⟨b, _ | ⟨c, _ | ⟨d, _ | ⟨e, _ | ⟨f, rest⟩⟩⟩⟩⟩⟩
    · rfl
    · rfl
    · rfl
    · rfl
    · rfl
    · exact absurd rfl h
    · rfl
  exact ⟨h6, h5, fun now s h => h6 now _ h⟩

/-- Witness for the corrected C5 on short inputs. -/
theorem parse_wrongFieldCount_fixedMessage_witness :
    parsePlayerStateParts 0 ["a", "b"] =
      .error (NewDomainError .operationFailed "invalid player state format") ∧
    parseTrackParts ["x"] =
      .error (NewDomainError .operationFailed "invalid track format") ∧
    parsePlayerState 0 "a|b" =
      .error (NewDomainError .operationFailed "invalid player state format") :=
  ⟨parse_wrongFieldCount_fixedMessage.1 0 ["a", "b"] (by decide),
   parse_wrongFieldCount_fixedMessage.2.1 ["x"] (by decide),
   parse_wrongFieldCount_fixedMessage.2.2 0 "a|b" (by decide)⟩

/-- Counterexample to claim C5 as stated: a 2-field player-state input
produces the fixed message "invalid player state format", which does not
mention the expected count 6. -/
theorem c5_not_as_stated : ¬ c5AsStated := by
  intro h
  obtain ⟨msg, cause, ctx, hp, hmention, _⟩ := h.1 0 ["a", "b"] (by decide)
  rw [show parsePlayerStateParts 0 ["a", "b"] =
      Except.error (GoError.domain .operationFailed "invalid player state format" none [])
      from rfl] at hp
  injection hp with hp'
  injection hp' with hcode hmsg hcause hctx
  subst hmsg
  exact absurd hmention (by decide)

/-- Claim C6 (corrected): for a 6-field line the state and repeat fields
decode case-insensitively and totally (never an error): the state switch
recognises exactly stopped/playing/paused and sends everything else —
including "buffering" — to stopped; the repeat switch recognises off/all/one
with off as fallback. -/
theorem parsePlayerState_state_repeat_decoding :
    (∀ (now : Int) (st sh rep tid : String), ∃ p,
       parsePlayerStateParts now [st, "50", "missing value", sh, rep, tid] = .ok p ∧
       p.state = parseStateField st ∧ p.repeatMode = parseRepeatField rep ∧
       p.shuffle = (goToLower sh == "true")) ∧
    parseStateField "buffering" = .stopped ∧
    parseStateField "PLAYING" = .playing ∧
    parseStateField "Paused" = .paused ∧
    parseStateField "garbage" = .stopped ∧
    parseRepeatField "ALL" = .all ∧
    parseRepeatField "One" = .one ∧
    parseRepeatField "garbage" = .off ∧
    parsePlayerState 7 "PLAYING|75|120|true|OFF|42" =
      .ok { state := .playing, currentTrack := some (NewTrackID "42"),
            position := NewDuration 120, volume := NewVolume 75,
            shuffle := true, repeatMode := .off, lastUpdated := 7 } := by
  refine ⟨fun now st sh rep tid => ⟨_, rfl, rfl, rfl, rfl⟩,
    by decide, by decide, by decide, by decide, by decide, by decide, by decide, rfl⟩

/-- Counterexample to claim C6 as stated: the field value "buffering"
decodes to stopped, not to the buffering member of the enumeration. -/
theorem c6_not_as_stated : ¬ c6AsStated := by
  intro h
  obtain ⟨p, hp, hs, _⟩ := h 0 "buffering" "off"
  rw [show parsePlayerStateParts 0 ["buffering", "50", "missing value", "false", "off", ""] =
      Except.ok ({ state := .stopped, currentTrack := none, position := NewDuration 0,
                   volume := NewVolume 50, shuffle := false, repeatMode := .off,
                   lastUpdated := 0 } : Player)
      from rfl] at hp
  injection hp with hp'
  subst hp'
  rw [show specStateOf "buffering" = PlayerState.buffering from rfl] at hs
  exact absurd hs (by decide)

/-- Claim C9 (confirmed): the shuffle field of a player-state line never
fails to decode — it is true exactly when the field lower-cases to "true",
and any other value (including garbage text) decodes to false. -/
theorem parsePlayerState_shuffle_total :
    (∀ (now : Int) (st sh rep tid : String), ∃ p,
       parsePlayerStateParts now [st, "50", "missing value", sh, rep, tid] = .ok p ∧
       p.shuffle = (goToLower sh == "true")) ∧
    (∃ p, parsePlayerState 0 "playing|50|missing value|TrUe|off|1" = .ok p ∧
       p.shuffle = true) ∧
    (∃ p, parsePlayerState 0 "playing|50|missing value|garbage!!|off|1" = .ok p ∧
       p.shuffle = false) :=
  ⟨fun now st sh rep tid => ⟨_, rfl, rfl⟩, ⟨_, rfl, rfl⟩, ⟨_, rfl, rfl⟩⟩

/-- Claim C7 (corrected): success and error are mutually exclusive on every
terminal result (the error field is authoritative exactly when present),
and the elapsed duration is populated on every path that reaches the retry
loop — but the pre-attempt validation failures (empty trimmed script,
template load failure) return with the duration left at its zero value. -/
theorem terminalResult_duration_and_exclusivity :
    (∀ (cfg : ExecutorConfig) (sched : Schedule) (script : String),
       goTrim script ≠ "" → (ExecuteWithTimeout cfg sched script).1.durationSet = true) ∧
    (∀ (cfg : ExecutorConfig) (sched : Schedule) (script : String),
       goTrim script = "" →
       (ExecuteWithTimeout cfg sched script).1 =
         { output := ""
           error := some (NewDomainError .invalidOperation "AppleScript cannot be empty")
           durationSet := false
           retryCount := 0 }) ∧
    (∀ (cfg : ExecutorConfig) (sched : Schedule) (store : String → Option String)
       (nm : String) (params : List (String × String)),
       store nm = none →
       (ExecuteTemplate cfg sched store nm params).1.durationSet = false ∧
       (ExecuteTemplate cfg sched store nm params).1.error.isSome = true) ∧
    (∀ (cfg : ExecutorConfig) (sched : Schedule) (script : String),
       (ExecuteWithTimeout cfg sched script).1.error = none →
       (ExecuteWithTimeout cfg sched script).1.durationSet = true) ∧
    (∀ (cfg : ExecutorConfig) (sched : Schedule) (script : String),
       Execute cfg sched script = ExecuteWithTimeout cfg sched script) := by
  have hmain : ∀ (cfg : ExecutorConfig) (sched : Schedule) (script : String),
      goTrim script ≠ "" → (ExecuteWithTimeout cfg sched script).1.durationSet = true := by
    intro cfg sched script h
    have hb : (goTrim script == "") = false := beq_eq_false_iff_ne.mpr h
    unfold ExecuteWithTimeout
    simp only [hb, Bool.false_eq_true, if_false]
    exact retryLoop_durationSet sched cfg.maxRetries _ _ _
  have hvalid : ∀ (cfg : ExecutorConfig) (sched : Schedule) (script : String),
      goTrim script = "" →
      (ExecuteWithTimeout cfg sched script).1 =
        { output := ""
          error := some (NewDomainError .invalidOperation "AppleScript cannot be empty")
          durationSet := false
          retryCount := 0 } := by
    intro cfg sched script h
    have hb : (goTrim script == "") = true := beq_iff_eq.mpr h
    unfold ExecuteWithTimeout
    simp only [hb, if_true]
  refine ⟨hmain, hvalid, ?_, ?_, fun _ _ _ => rfl⟩
  · intro cfg sched store nm params h
    unfold ExecuteTemplate
    rw [h]
    exact ⟨rfl, rfl⟩
  · intro cfg sched script he
    by_cases h : goTrim script = ""
    · rw [hvalid cfg sched script h] at he
      exact Option.noConfusion he
    · exact hmain cfg sched script h

/-- Witness for the corrected C7: a run with a non-empty script has the
duration set; the empty-script and missing-template paths do not. -/
theorem terminalResult_duration_and_exclusivity_witness :
    (ExecuteWithTimeout ⟨0⟩ ⟨fun _ => ⟨"ok", none⟩, fun _ => false, fun _ => false⟩
       "s").1.durationSet = true ∧
    (ExecuteWithTimeout ⟨0⟩ ⟨fun _ => ⟨"ok", none⟩, fun _ => false, fun _ => false⟩
       " ").1 =
      { output := ""
        error := some (NewDomainError .invalidOperation "AppleScript cannot be empty")
        durationSet := false
        retryCount := 0 } ∧
    (ExecuteTemplate ⟨0⟩ ⟨fun _ => ⟨"ok", none⟩, fun _ => false, fun _ => false⟩
       (fun _ => none) "missing" []).1.durationSet = false :=
  ⟨terminalResult_duration_and_exclusivity.1 _ _ _ (by decide),
   terminalResult_duration_and_exclusivity.2.1 _ _ _ (by decide),
   (terminalResult_duration_and_exclusivity.2.2.1 _ _ _ _ _ rfl).1⟩

/-- Counterexample to claim C7 as stated: the empty-script validation path
returns a terminal result whose duration field was never assigned. -/
theorem c7_not_as_stated : ¬ c7AsStated := by
  intro h
  have hd := (h ⟨3⟩ ⟨fun _ => ⟨"", none⟩, fun _ => false, fun _ => false⟩ ""
    (fun _ => none) "x" []).1
  exact absurd hd (by decide)

/-- Claim C8 (confirmed): volume construction clamps levels below 0 to 0
and above 100 to 100, and for every level in [0,100] rendering the volume
to its decimal text and decoding it back (Atoi plus the clamping
constructor) yields exactly the same volume. -/
theorem volume_clamp_roundtrip :
    (∀ l : Int, l < 0 → (NewVolume l).Level = 0) ∧
    (∀ l : Int, 100 < l → (NewVolume l).Level = 100) ∧
    (∀ l : Int, 0 ≤ l → l ≤ 100 → (NewVolume l).Level = l) ∧
    (∀ l : Int, 0 ≤ l → l ≤ 100 →
       decodeVolume (encodeVolume (NewVolume l)) = some (NewVolume l)) := by
  have hclamp0 : ∀ l : Int, l < 0 → (NewVolume l).Level = 0 := by
    intro l h
    unfold NewVolume Volume.Level
    rw [if_pos h]
  have hclamp100 : ∀ l : Int, 100 < l → (NewVolume l).Level = 100 := by
    intro l h
    unfold NewVolume Volume.Level
    rw [if_neg (by omega), if_pos (by omega)]
  have hid : ∀ l : Int, 0 ≤ l → l ≤ 100 → (NewVolume l).Level = l := by
    intro l h0 h1
    unfold NewVolume Volume.Level
    rw [if_neg (by omega), if_neg (by omega)]
  have hrtNat : ∀ n : Nat, n < 101 →
      decodeVolume (encodeVolume (NewVolume (n : Int))) = some (NewVolume (n : Int)) := by
    decide
  refine ⟨hclamp0, hclamp100, hid, ?_⟩
  intro l h0 h1
  obtain ⟨n, rfl⟩ : ∃ n : Nat, l = (n : Int) := ⟨l.toNat, (Int.toNat_of_nonneg h0).symm⟩
  exact hrtNat n (by omega)

/-- Witness for C8 at concrete levels. -/
theorem volume_clamp_roundtrip_witness :
    (NewVolume (-5)).Level = 0 ∧ (NewVolume 150).Level = 100 ∧
    (NewVolume 42).Level = 42 ∧
    decodeVolume (encodeVolume (NewVolume 42)) = some (NewVolume 42) :=
  ⟨volume_clamp_roundtrip.1 (-5) (by decide),
   volume_clamp_roundtrip.2.1 150 (by decide),
   volume_clamp_roundtrip.2.2.1 42 (by decide) (by decide),
   volume_clamp_roundtrip.2.2.2 42 (by decide) (by decide)⟩

/-- Claim C10 (confirmed): every Duration is non-negative by construction —
NewDuration clamps negative inputs to 0, Subtract saturates at 0, and every
duration produced by the constructors and operations has Seconds ≥ 0. -/
theorem duration_nonneg_invariant :
    (∀ s : Int, s < 0 → (NewDuration s).Seconds = 0) ∧
    (∀ d o : Duration, 0 ≤ (d.Subtract o).Seconds) ∧
    (∀ d : Duration, ProducedDuration d → 0 ≤ d.Seconds) := by
  have hneg : ∀ s : Int, s < 0 → (NewDuration s).Seconds = 0 := by
    intro s h
    unfold NewDuration Duration.Seconds
    rw [if_pos h]
  refine ⟨hneg, fun d o => newDuration_seconds_nonneg _, ?_⟩
  intro d h
  cases h with
  | new s => exact newDuration_seconds_nonneg s
  | fromTime s => exact newDuration_seconds_nonneg s
  | add h1 h2 => exact newDuration_seconds_nonneg _
  | subtract h1 h2 => exact newDuration_seconds_nonneg _

/-- Witness for C10: a clamped constructor input, a saturating subtraction
and a composite produced duration. -/
theorem duration_nonneg_invariant_witness :
    (NewDuration (-3)).Seconds = 0 ∧
    0 ≤ ((NewDuration 2).Subtract (NewDuration 5)).Seconds ∧
    0 ≤ ((NewDuration 7).Add (NewDuration 1)).Seconds :=
  ⟨duration_nonneg_invariant.1 (-3) (by decide),
   duration_nonneg_invariant.2.1 (NewDuration 2) (NewDuration 5),
   duration_nonneg_invariant.2.2 _ (ProducedDuration.add (.new 7) (.new 1))⟩

end Maestro
